import Mathlib

/-!
Verification development for the goblet CLI (`src/goblet/cli.py`).

The CLI glue in `cli.py` is embedded shallowly: Python strings are Lean
`String`s, `os.environ` is an association list of string pairs, Python dicts
(the `stages` mapping of `GConfig`) are insertion-ordered association lists,
`click.echo` output is collected in a list of messages, and an exception that
escapes a command is recorded in an `Option` field of the command's result.
Collaborators that live outside `src/` (`get_default_project`,
`get_goblet_app`, the `app.deploy` / `app.sync` / `app.destroy` methods of the
goblet application object) are modelled from the spec, as marked in their doc
comments.
-/

set_option autoImplicit false

namespace Goblet

/-- Python exceptions that can escape a CLI command in the embedded fragment:
`TypeError` (from assigning a non-string to `os.environ`), `ConflictError`
(raised by the deployment orchestrator on a pre-existing resource when force
is not set), and `ValueError` (from `int()` on a non-numeric string). -/
inductive PyExc where
  | typeError
  | conflictError
  | valueError
deriving DecidableEq

/-- Insertion-ordered association-list update, the embedding of Python
`d[k] = v` on a `dict` (and of `os.environ[k] = v`): an existing key is
updated in place, a new key is appended at the end. -/
def assocSet {α : Type} (m : List (String × α)) (k : String) (v : α) :
    List (String × α) :=
  match m with
  | [] => [(k, v)]
  | (k', v') :: rest =>
    if k' = k then (k, v) :: rest else (k', v') :: assocSet rest k v

/-- Association-list lookup, the embedding of Python `d[k]` / `d.get(k)`. -/
def assocLookup {α : Type} (m : List (String × α)) (k : String) : Option α :=
  match m with
  | [] => none
  | (k', v') :: rest => if k' = k then some v' else assocLookup rest k

/-- Association-list key membership, the embedding of Python `k in d`. -/
def assocContains {α : Type} (m : List (String × α)) (k : String) : Bool :=
  m.any fun p => p.1 == k

/-! ## Naming convention (spec §4.2)

Modelled from the spec: the naming convention itself lives in the goblet
application core, which is not under `src/`; only its use at
`cli.py:249` (`function_name = f"{app.function_name}-{stage}"`) is.  The
spec gives the convention as
`remoteName(baseName, stage) = stage ? "{baseName}-{stage}" : baseName`. -/

/-- Modelled from the spec: `remoteName(baseName, stage)` — suffix the base
name with `-stage` when a stage is given, otherwise the base name alone. -/
def remoteName (baseName : String) (stage : Option String) : String :=
  match stage with
  | some s => baseName ++ "-" ++ s
  | none => baseName

/-- Split a character list at its first `'-'`: `some (prefixPart, rest)` when
a dash occurs, `none` otherwise.  Helper for the inverse mapping of the
naming convention. -/
def splitAtDash : List Char → Option (List Char × List Char)
  | [] => none
  | c :: cs =>
    if c = '-' then some ([], cs)
    else
      match splitAtDash cs with
      | some (pre, post) => some (c :: pre, post)
      | none => none

/-- Modelled from the spec: the inverse mapping
`parse(remoteName) -> (baseName, stage)` of the naming convention — split the
identifier at its first dash; an identifier without a dash is a bare base
name with no stage. -/
def parseRemoteName (r : String) : String × Option String :=
  match splitAtDash r.data with
  | some (b, s) => (⟨b⟩, some ⟨s⟩)
  | none => (r, none)

/-! ## Config and `stage create` (cli.py lines 239–257) -/

/-- A per-stage override, `config.stages[stage] = {"function_name": ...}`
(cli.py lines 251/253). -/
structure StageOverride where
  function_name : String
deriving DecidableEq

/-- The slice of `GConfig` the `stage` subcommands use: the `stages` mapping.
`none` embeds a config whose JSON has no `stages` key (Python attribute value
`None`); `some m` embeds a present dict with entries in insertion order. -/
structure GConfig where
  stages : Option (List (String × StageOverride))
deriving DecidableEq

/-- Python truthiness of `config.stages`: `None` and the empty dict are
falsy. -/
def stagesTruthy (o : Option (List (String × StageOverride))) : Bool :=
  match o with
  | some (_ :: _) => true
  | _ => false

/-- Embedding of `stage in config.stages` (well-defined also when the mapping
is absent, in which case it is `false`; the Python code only evaluates it
behind the truthiness guard). -/
def stagesContains (o : Option (List (String × StageOverride))) (s : String) :
    Bool :=
  assocContains (o.getD []) s

/-- Result of the `stage create` command: the config value at the end, whether
`config.write()` was reached, the `click.echo` messages, and the filename of
an uncaught `FileNotFoundError` (the command has no try/except). -/
structure StageCreateResult where
  config : GConfig
  written : Bool
  echoes : List String
  exc : Option String
deriving DecidableEq

/-- Embedding of the `stage create` command body (cli.py lines 243–257).
`load` stands for `get_goblet_app(...)`, which is not under `src/`: it either
raises `FileNotFoundError` with a filename or yields the app, of which only
`app.function_name` is used. -/
def stage_create (config : GConfig) (load : Except String String)
    (stage : String) : StageCreateResult :=
  if stagesTruthy config.stages && stagesContains config.stages stage then
    { config := config, written := false,
      echoes := ["stage " ++ stage ++ " already exists"], exc := none }
  else
    match load with
    | .error fname =>
      { config := config, written := false, echoes := [], exc := some fname }
    | .ok appFunctionName =>
      let function_name := appFunctionName ++ "-" ++ stage
      let stages' :=
        if !stagesTruthy config.stages then
          [(stage, StageOverride.mk function_name)]
        else
          assocSet (config.stages.getD []) stage (StageOverride.mk function_name)
      { config := { config with stages := some stages' }, written := true,
        echoes := ["stage " ++ stage ++ " created in config.json with function name "
          ++ function_name],
        exc := none }

/-! ## Reconciler model (spec §4.5)

Modelled from the spec: `app.sync(dryrun)` dispatches into the goblet
application core, which is not under `src/`.  The model follows §4.5: list
the remote resources for the active stage, parse each identifier with the
naming convention's inverse, diff the parsed (kind, baseName) pairs against
the declared set, and delete the orphans — or only report them under
dry-run. -/

/-- A remote resource: kind plus remote identifier (spec §3). -/
structure RemoteResource where
  kind : String
  name : String
deriving DecidableEq

/-- A declared resource: kind plus base name (spec §3). -/
structure DeclaredResource where
  kind : String
  baseName : String
deriving DecidableEq

/-- Modelled from the spec (§4.3): `listRemote(stage)` — the remote resources
whose identifier matches the naming convention for the given stage, i.e.
parses to that stage. -/
def listRemote (activeStage : Option String) (R : List RemoteResource) :
    List RemoteResource :=
  R.filter fun r => (parseRemoteName r.name).2 == activeStage

/-- Does the declared set contain a resource of this kind and base name
(spec §4.5 step 3)? -/
def declaredContains (D : List DeclaredResource) (kind base : String) : Bool :=
  D.any fun d => d.kind == kind && d.baseName == base

/-- Modelled from the spec (§4.5 steps 1–4): the orphan set — remote
resources matching the naming convention for the active stage whose parsed
(kind, baseName) is not declared. -/
def orphanSet (R : List RemoteResource) (D : List DeclaredResource)
    (activeStage : Option String) : List RemoteResource :=
  (listRemote activeStage R).filter fun r =>
    !(declaredContains D r.kind (parseRemoteName r.name).1)

/-- Modelled from the spec (§4.5 step 5): one sync pass over the remote set
`R`; returns the remote set after the pass and the reported orphan set.
Under dry-run the remote set is untouched; otherwise each orphan is
deleted. -/
def syncModel (dryrun : Bool) (R : List RemoteResource)
    (D : List DeclaredResource) (activeStage : Option String) :
    List RemoteResource × List RemoteResource :=
  let orphans := orphanSet R D activeStage
  if dryrun then (R, orphans)
  else (R.filter fun r => !(orphans.contains r), orphans)

/-! ## CLI command embeddings (cli.py lines 35–130, 196–209, 266–283)

Each command is a function of its click parameters plus explicit stand-ins
for the external collaborators: `env` for `os.environ` on entry,
`defaultProject` for the result of `get_default_project()` (goblet/client.py,
not under `src/`; modelled from the spec: the local cloud-CLI default
project, absent when none is configured), and `load` for
`get_goblet_app(GConfig().main_file or "main.py")`, which either raises
`FileNotFoundError` with a filename or yields the app. -/

/-- The warning echoed when no project is resolved (cli.py lines 54–56,
85–88, 117–119). -/
def projectWarning : String :=
  "Project not found. Set --project flag or add to gcloud by using gcloud config set project PROJECT"

/-- The message echoed by the `except FileNotFoundError` handlers (cli.py
lines 66–69, 96–99, 127–130, 206–209, 280–283). -/
def missingMsg (fname : String) : String :=
  "Missing " ++ fname ++ ". Make sure you are in the correct directory and this file exists"

/-- Modelled from the spec (§4.4 VALIDATE): `app.deploy(skip_function,
only_function, config=..., force=...)`.  Plan pruning by the skip/only flags
and the config merge are not modelled (no claim exercises them); the
force/conflict gate is: unless force is set, a pre-existing conflicting
resource aborts the whole plan with a `ConflictError`. -/
def app_deploy (_skip_function _only_function : Bool) (_config : Option String)
    (force : Bool) (conflict : Bool) : Except PyExc Unit :=
  if conflict && !force then .error .conflictError else .ok ()

/-- Result of the `deploy` command: echoed messages, `os.environ` at the end,
an uncaught exception if one escaped, and whether `app.deploy` ran to
completion. -/
structure DeployResult where
  echoes : List String
  env : List (String × String)
  exc : Option PyExc
  deployed : Bool
deriving DecidableEq

/-- Embedding of the `deploy` command body (cli.py lines 51–69).
`_project = project or get_default_project()`; when it is absent the warning
is echoed and the subsequent `os.environ["GOOGLE_PROJECT"] = _project`
raises an uncaught `TypeError` (only `FileNotFoundError` is handled).  Note
line 64 calls `app.deploy(..., force=False)` with a literal `False`: the
user's `force` value is dropped. -/
def deployCmd (env : List (String × String))
    (project defaultProject : Option String) (location : String)
    (stage : Option String) (skip_function only_function : Bool)
    (config : Option String) (force : Bool) (load : Except String Unit)
    (conflict : Bool) : DeployResult :=
  let projectResolved := match project with
    | some p => some p
    | none => defaultProject
  let warn := if projectResolved.isNone then [projectWarning] else []
  match projectResolved with
  | none => { echoes := warn, env := env, exc := some .typeError, deployed := false }
  | some p =>
    let env1 := assocSet env "GOOGLE_PROJECT" p
    let env2 := assocSet env1 "GOOGLE_LOCATION" location
    let env3 := match stage with
      | some s => assocSet env2 "STAGE" s
      | none => env2
    match load with
    | .error fname =>
      { echoes := warn ++ [missingMsg fname], env := env3, exc := none,
        deployed := false }
    | .ok () =>
      match app_deploy skip_function only_function config false conflict with
      | .error e =>
        { echoes := warn, env := env3, exc := some e, deployed := false }
      | .ok () =>
        { echoes := warn, env := env3, exc := none, deployed := true }

/-- Result of the `destroy` command; `destroyCalled` records the `all`
argument `app.destroy(all)` was invoked with, `none` when it was not
reached. -/
structure DestroyResult where
  echoes : List String
  env : List (String × String)
  exc : Option PyExc
  destroyCalled : Option Bool
deriving DecidableEq

/-- Embedding of the `destroy` command body (cli.py lines 83–99); the same
project-resolution and `FileNotFoundError` glue as `deploy`, dispatching to
`app.destroy(all)`. -/
def destroyCmd (env : List (String × String))
    (project defaultProject : Option String) (location : String)
    (stage : Option String) (all : Bool) (load : Except String Unit) :
    DestroyResult :=
  let projectResolved := match project with
    | some p => some p
    | none => defaultProject
  let warn := if projectResolved.isNone then [projectWarning] else []
  match projectResolved with
  | none =>
    { echoes := warn, env := env, exc := some .typeError, destroyCalled := none }
  | some p =>
    let env1 := assocSet env "GOOGLE_PROJECT" p
    let env2 := assocSet env1 "GOOGLE_LOCATION" location
    let env3 := match stage with
      | some s => assocSet env2 "STAGE" s
      | none => env2
    match load with
    | .error fname =>
      { echoes := warn ++ [missingMsg fname], env := env3, exc := none,
        destroyCalled := none }
    | .ok () =>
      { echoes := warn, env := env3, exc := none, destroyCalled := some all }

/-- Result of the `sync` command: the remote resource set after the command
and the orphan set `app.sync` reported (`none` when `app.sync` was not
reached). -/
structure SyncResult where
  echoes : List String
  env : List (String × String)
  exc : Option PyExc
  remote : List RemoteResource
  reported : Option (List RemoteResource)
deriving DecidableEq

/-- Embedding of the `sync` command body (cli.py lines 114–130); the same
glue as `deploy`, dispatching to `app.sync(dryrun)` — the user's `dryrun`
flag is passed through — modelled by `syncModel` over the current remote set
`R` and declared set `D`. -/
def syncCmd (env : List (String × String))
    (project defaultProject : Option String) (location : String)
    (stage : Option String) (dryrun : Bool) (load : Except String Unit)
    (R : List RemoteResource) (D : List DeclaredResource) : SyncResult :=
  let projectResolved := match project with
    | some p => some p
    | none => defaultProject
  let warn := if projectResolved.isNone then [projectWarning] else []
  match projectResolved with
  | none =>
    { echoes := warn, env := env, exc := some .typeError, remote := R,
      reported := none }
  | some p =>
    let env1 := assocSet env "GOOGLE_PROJECT" p
    let env2 := assocSet env1 "GOOGLE_LOCATION" location
    let env3 := match stage with
      | some s => assocSet env2 "STAGE" s
      | none => env2
    match load with
    | .error fname =>
      { echoes := warn ++ [missingMsg fname], env := env3, exc := none,
        remote := R, reported := none }
    | .ok () =>
      let res := syncModel dryrun R D stage
      { echoes := warn, env := env3, exc := none, remote := res.1,
        reported := some res.2 }

/-- Result of the `package` command; `packaged` records whether
`app.package()` was reached. -/
structure PackageResult where
  echoes : List String
  env : List (String × String)
  exc : Option PyExc
  packaged : Bool
deriving DecidableEq

/-- Embedding of the `package` command body (cli.py lines 200–209). -/
def packageCmd (env : List (String × String)) (stage : Option String)
    (load : Except String Unit) : PackageResult :=
  let env1 := match stage with
    | some s => assocSet env "STAGE" s
    | none => env
  match load with
  | .error fname =>
    { echoes := [missingMsg fname], env := env1, exc := none, packaged := false }
  | .ok () =>
    { echoes := [], env := env1, exc := none, packaged := true }

/-- Value of an all-digit character list read as a decimal numeral, `none`
when empty or containing a non-digit.  Helper for the embedding of Python's
`int()`. -/
def digitsVal? (l : List Char) : Option Nat :=
  match l with
  | [] => none
  | _ =>
    l.foldl (fun acc c =>
      match acc with
      | none => none
      | some n => if c.isDigit then some (n * 10 + (c.toNat - '0'.toNat)) else none)
      (some 0)

/-- Embedding of Python `int(s)` on a string: an optional leading minus sign
followed by decimal digits; `none` embeds the `ValueError` raise.  (Python
additionally strips surrounding whitespace and allows `+` and `_`; no claim
depends on those inputs.) -/
def pyInt? (s : String) : Option Int :=
  match s.data with
  | '-' :: rest => (digitsVal? rest).map (fun n => -(n : Int))
  | l => (digitsVal? l).map (fun n => (n : Int))

/-- Result of the `job run` command; `call` records the `(name, task index)`
the app object was invoked with, `none` when the call was not reached. -/
structure RunJobResult where
  echoes : List String
  env : List (String × String)
  exc : Option PyExc
  call : Option (String × Int)
deriving DecidableEq

/-- Embedding of the `job run` command body (cli.py lines 271–283):
`os.environ["CLOUD_RUN_TASK_INDEX"] = task_id` runs before the try block, so
`load` (standing for `get_goblet_app`) receives the updated environment;
then `app(name, int(task_id))` — `int()` is embedded as `pyInt?`, and a
non-numeric `task_id` raises an uncaught
`ValueError`.  click supplies `task_id = "1"` when the argument is omitted
and no `CLOUD_RUN_TASK_INDEX` environment variable overrides it
(`run_jobDefault`). -/
def run_job (env : List (String × String))
    (load : List (String × String) → Except String Unit)
    (name task_id : String) : RunJobResult :=
  let env1 := assocSet env "CLOUD_RUN_TASK_INDEX" task_id
  match load env1 with
  | .error fname =>
    { echoes := [missingMsg fname], env := env1, exc := none, call := none }
  | .ok () =>
    match pyInt? task_id with
    | some k => { echoes := [], env := env1, exc := none, call := some (name, k) }
    | none => { echoes := [], env := env1, exc := some .valueError, call := none }

/-- The `job run` command when the `task_id` argument is omitted: click fills
in its declared default `"1"` (cli.py line 270). -/
def run_jobDefault (env : List (String × String))
    (load : List (String × String) → Except String Unit) (name : String) :
    RunJobResult :=
  run_job env load name "1"

/-! ## Helper lemmas -/

theorem assocLookup_assocSet {α : Type} (m : List (String × α)) (k : String)
    (v : α) : assocLookup (assocSet m k v) k = some v := by
  induction m with
  | nil => simp [assocSet, assocLookup]
  | cons p rest ih =>
    obtain ⟨k', v'⟩ := p
    by_cases h : k' = k <;> simp [assocSet, assocLookup, h, ih]

theorem assocSet_not_contains {α : Type} (m : List (String × α)) (k : String)
    (v : α) (h : assocContains m k = false) : assocSet m k v = m ++ [(k, v)] := by
  induction m with
  | nil => simp [assocSet]
  | cons p rest ih =>
    obtain ⟨k', v'⟩ := p
    simp only [assocContains, List.any_cons, Bool.or_eq_false_iff] at h
    have hk : k' ≠ k := by
      intro hkk
      simp [hkk] at h
    simp only [assocSet, if_neg hk, List.cons_append, List.cons.injEq, true_and]
    exact ih (by simpa [assocContains] using h.2)

theorem assocLookup_append_not_contains {α : Type} (m : List (String × α))
    (k : String) (v : α) (h : assocContains m k = false) :
    assocLookup (m ++ [(k, v)]) k = some v := by
  induction m with
  | nil => simp [assocLookup]
  | cons p rest ih =>
    obtain ⟨k', v'⟩ := p
    simp only [assocContains, List.any_cons, Bool.or_eq_false_iff] at h
    have hk : k' ≠ k := by
      intro hkk
      simp [hkk] at h
    simp only [List.cons_append, assocLookup, if_neg hk]
    exact ih (by simpa [assocContains] using h.2)

theorem string_data_append (a b : String) : (a ++ b).data = a.data ++ b.data :=
  rfl

theorem splitAtDash_of_not_mem (xs : List Char) (h : '-' ∉ xs) :
    splitAtDash xs = none := by
  induction xs with
  | nil => rfl
  | cons c cs ih =>
    simp only [List.mem_cons, not_or] at h
    have hc : c ≠ '-' := fun hc => h.1 hc.symm
    simp [splitAtDash, hc, ih h.2]

theorem splitAtDash_append (b s : List Char) (h : '-' ∉ b) :
    splitAtDash (b ++ '-' :: s) = some (b, s) := by
  induction b with
  | nil => simp [splitAtDash]
  | cons c cs ih =>
    simp only [List.mem_cons, not_or] at h
    have hc : c ≠ '-' := fun hc => h.1 hc.symm
    simp [splitAtDash, hc, ih h.2]

theorem splitAtDash_eq_some (xs pre post : List Char)
    (h : splitAtDash xs = some (pre, post)) : xs = pre ++ '-' :: post := by
  induction xs generalizing pre post with
  | nil => simp [splitAtDash] at h
  | cons c cs ih =>
    by_cases hc : c = '-'
    · simp only [splitAtDash, if_pos hc, Option.some.injEq, Prod.mk.injEq] at h
      simp [hc, ← h.1, ← h.2]
    · simp only [splitAtDash, if_neg hc] at h
      cases hsplit : splitAtDash cs with
      | none => rw [hsplit] at h; exact absurd h (by simp)
      | some pq =>
        obtain ⟨p, q⟩ := pq
        rw [hsplit] at h
        simp only [Option.some.injEq, Prod.mk.injEq] at h
        have := ih p q hsplit
        simp [← h.1, ← h.2, this]

theorem parse_remoteName (b : String) (s : Option String)
    (hb : '-' ∉ b.data) : parseRemoteName (remoteName b s) = (b, s) := by
  cases s with
  | none =>
    simp [remoteName, parseRemoteName, splitAtDash_of_not_mem b.data hb]
  | some s' =>
    have hdata : (b ++ "-" ++ s').data = b.data ++ '-' :: s'.data := by
      rw [string_data_append, string_data_append, List.append_assoc]
      rfl
    simp only [remoteName, parseRemoteName, hdata,
      splitAtDash_append b.data s'.data hb]

theorem remoteName_parse (r : String) :
    remoteName (parseRemoteName r).1 (parseRemoteName r).2 = r := by
  unfold parseRemoteName
  cases hsplit : splitAtDash r.data with
  | none => rfl
  | some pq =>
    obtain ⟨pre, post⟩ := pq
    have hr : r.data = pre ++ '-' :: post := splitAtDash_eq_some _ _ _ hsplit
    apply String.ext
    show (String.mk pre ++ "-" ++ String.mk post).data = r.data
    simp [string_data_append, hr]

theorem stagesTruthy_of_contains (o : Option (List (String × StageOverride)))
    (s : String) (h : stagesContains o s = true) : stagesTruthy o = true := by
  cases o with
  | none => simp [stagesContains, assocContains] at h
  | some m =>
    cases m with
    | nil => simp [stagesContains, assocContains] at h
    | cons p rest => rfl

theorem stage_create_not_contains (c : GConfig) (n s : String)
    (h : stagesContains c.stages s = false) :
    stage_create c (.ok n) s =
      { config := ⟨some (c.stages.getD []
            ++ [(s, StageOverride.mk (n ++ "-" ++ s))])⟩,
        written := true,
        echoes := ["stage " ++ s ++ " created in config.json with function name "
          ++ (n ++ "-" ++ s)],
        exc := none } := by
  unfold stage_create
  rw [h]
  simp only [Bool.and_false, Bool.false_eq_true, if_false]
  cases hc : c.stages with
  | none => simp [stagesTruthy]
  | some m =>
    cases m with
    | nil => simp [stagesTruthy]
    | cons p rest =>
      rw [hc] at h
      simp only [stagesTruthy, Bool.not_true, Bool.false_eq_true, if_false,
        Option.getD_some]
      rw [assocSet_not_contains _ _ _ (by simpa [stagesContains] using h)]

theorem declaredContains_eq_true_iff (D : List DeclaredResource)
    (k b : String) :
    declaredContains D k b = true ↔ ∃ d ∈ D, d.kind = k ∧ d.baseName = b := by
  simp [declaredContains, List.any_eq_true, Bool.and_eq_true, beq_iff_eq]

/-! ## Claim theorems -/

/-- C1: cli.py line 64 calls `app.deploy(..., force=False)` with a literal
`False`, dropping the user's `--force` flag.  At the failing input — `deploy`
invoked with force set against a pre-existing conflicting resource — the
command aborts with an uncaught `ConflictError` instead of overwriting; in
general the result of the command is independent of the user's force
value. -/
theorem c1_force_flag_dropped :
    (deployCmd [] (some "my-project") none "us-central1" none false false none
        true (.ok ()) true).exc = some PyExc.conflictError
    ∧ (deployCmd [] (some "my-project") none "us-central1" none false false none
        true (.ok ()) true).deployed = false
    ∧ ∀ (env : List (String × String)) (project defaultProject : Option String)
        (location : String) (stage : Option String)
        (skip_function only_function : Bool) (config : Option String)
        (f1 f2 : Bool) (load : Except String Unit) (conflict : Bool),
        deployCmd env project defaultProject location stage skip_function
            only_function config f1 load conflict
          = deployCmd env project defaultProject location stage skip_function
              only_function config f2 load conflict :=
  ⟨rfl, rfl, fun _ _ _ _ _ _ _ _ _ _ _ _ => rfl⟩

/-- C2: `stage create` on an existing stage name returns early: the config
value is unchanged, `config.write()` is never reached, the conflict message
is echoed, and no exception escapes. -/
theorem c2_stage_create_existing_conflict (c : GConfig)
    (load : Except String String) (s : String)
    (h : stagesContains c.stages s = true) :
    stage_create c load s =
      { config := c, written := false,
        echoes := ["stage " ++ s ++ " already exists"], exc := none } := by
  unfold stage_create
  rw [stagesTruthy_of_contains c.stages s h, h]
  rfl

/-- C2 witness: a config whose stages mapping already has `"dev"`. -/
theorem c2_stage_create_existing_conflict_witness :
    stagesContains (GConfig.mk (some [("dev", StageOverride.mk "app-dev")])).stages
        "dev" = true
    ∧ stage_create (GConfig.mk (some [("dev", StageOverride.mk "app-dev")]))
        (.ok "app") "dev" =
      { config := GConfig.mk (some [("dev", StageOverride.mk "app-dev")]),
        written := false,
        echoes := ["stage " ++ "dev" ++ " already exists"], exc := none } :=
  ⟨by decide,
    c2_stage_create_existing_conflict
      (GConfig.mk (some [("dev", StageOverride.mk "app-dev")])) (.ok "app")
      "dev" (by decide)⟩

/-- C3 counterexample: with no project from the flag, the environment
variable, or the cloud-CLI default, `deploy` does echo the warning, but then
`os.environ["GOOGLE_PROJECT"] = None` raises an uncaught `TypeError`: the
command aborts without reaching the deployment, contradicting "proceeds with
the rest of the operation rather than aborting with an error". -/
theorem c3_unresolved_project_counterexample :
    (deployCmd [] none none "us-central1" none false false none false (.ok ())
        false).echoes = [projectWarning]
    ∧ (deployCmd [] none none "us-central1" none false false none false (.ok ())
        false).exc = some PyExc.typeError
    ∧ (deployCmd [] none none "us-central1" none false false none false (.ok ())
        false).deployed = false :=
  ⟨rfl, rfl, rfl⟩

/-- C3 amended: for every invocation of deploy (and likewise destroy and
sync) in which no project is resolved, the command prints the warning and
then aborts with an uncaught `TypeError` from assigning the absent project
to `os.environ`; the rest of the operation (loading and invoking the app) is
never reached. -/
theorem c3_unresolved_project_warns_then_aborts
    (env : List (String × String)) (location : String) (stage : Option String)
    (skip_function only_function all dryrun force : Bool)
    (config : Option String) (load : Except String Unit) (conflict : Bool)
    (R : List RemoteResource) (D : List DeclaredResource) :
    deployCmd env none none location stage skip_function only_function config
        force load conflict
      = { echoes := [projectWarning], env := env, exc := some PyExc.typeError,
          deployed := false }
    ∧ destroyCmd env none none location stage all load
      = { echoes := [projectWarning], env := env, exc := some PyExc.typeError,
          destroyCalled := none }
    ∧ syncCmd env none none location stage dryrun load R D
      = { echoes := [projectWarning], env := env, exc := some PyExc.typeError,
          remote := R, reported := none } :=
  ⟨rfl, rfl, rfl⟩

/-- C4: the naming convention suffixes the base name with `-stage` when a
stage is given and is the identity otherwise, and the function name `stage
create` records for a fresh stage `s` is the app's function name suffixed
with `-s`. -/
theorem c4_remote_name_convention (b s' : String) (c : GConfig) (n s : String)
    (h : stagesContains c.stages s = false) :
    remoteName b (some s') = b ++ "-" ++ s'
    ∧ remoteName b none = b
    ∧ assocLookup ((stage_create c (.ok n) s).config.stages.getD []) s
        = some (StageOverride.mk (n ++ "-" ++ s)) := by
  refine ⟨rfl, rfl, ?_⟩
  rw [stage_create_not_contains c n s h]
  exact assocLookup_append_not_contains _ _ _ (by simpa [stagesContains] using h)

/-- C4 witness: the convention and `stage create` evaluated at concrete
names. -/
theorem c4_remote_name_convention_witness :
    remoteName "fn" (some "dev") = "fn" ++ "-" ++ "dev"
    ∧ remoteName "fn" none = "fn"
    ∧ assocLookup
        ((stage_create (GConfig.mk none) (.ok "app") "dev").config.stages.getD [])
        "dev" = some (StageOverride.mk ("app" ++ "-" ++ "dev")) :=
  c4_remote_name_convention "fn" "dev" (GConfig.mk none) "app" "dev" (by decide)

/-- C9: `stage create` on a stage name `s` not already present yields the
previous stages mapping (empty when absent) extended with exactly the entry
`s ↦ {function_name: appName ++ "-" ++ s}` appended at the end; in
particular, when no stages mapping existed the result is that single
entry. -/
theorem c9_stage_create_extends (c : GConfig) (n s : String)
    (h : stagesContains c.stages s = false) :
    (stage_create c (.ok n) s).config.stages
        = some (c.stages.getD [] ++ [(s, StageOverride.mk (n ++ "-" ++ s))])
    ∧ (stage_create c (.ok n) s).written = true
    ∧ (c.stages = none →
        (stage_create c (.ok n) s).config.stages
          = some [(s, StageOverride.mk (n ++ "-" ++ s))]) := by
  rw [stage_create_not_contains c n s h]
  refine ⟨rfl, rfl, fun h0 => ?_⟩
  rw [h0]
  rfl

/-- C9 witness: creating stage `"prod"` over an existing `"dev"` entry
appends exactly the new entry. -/
theorem c9_stage_create_extends_witness :
    (stage_create (GConfig.mk (some [("dev", StageOverride.mk "app-dev")]))
        (.ok "app") "prod").config.stages
      = some ((GConfig.mk (some [("dev", StageOverride.mk "app-dev")])).stages.getD []
          ++ [("prod", StageOverride.mk ("app" ++ "-" ++ "prod"))])
    ∧ (stage_create (GConfig.mk (some [("dev", StageOverride.mk "app-dev")]))
        (.ok "app") "prod").written = true
    ∧ ((GConfig.mk (some [("dev", StageOverride.mk "app-dev")])).stages = none →
        (stage_create (GConfig.mk (some [("dev", StageOverride.mk "app-dev")]))
            (.ok "app") "prod").config.stages
          = some [("prod", StageOverride.mk ("app" ++ "-" ++ "prod"))]) :=
  c9_stage_create_extends (GConfig.mk (some [("dev", StageOverride.mk "app-dev")]))
    "app" "prod" (by decide)

/-- C5: on pairs whose base names are free of the stage-separator `'-'`, the
naming convention round-trips through its inverse mapping
(`parse(remoteName(b, s)) = (b, s)`) and is injective: distinct pairs map to
distinct remote identifiers. -/
theorem c5_naming_injective_roundtrip (b1 b2 : String) (s1 s2 : Option String)
    (h1 : ('-' : Char) ∉ b1.data) (h2 : ('-' : Char) ∉ b2.data) :
    parseRemoteName (remoteName b1 s1) = (b1, s1)
    ∧ ((b1, s1) ≠ (b2, s2) → remoteName b1 s1 ≠ remoteName b2 s2) := by
  refine ⟨parse_remoteName b1 s1 h1, fun hne heq => hne ?_⟩
  have h := congrArg parseRemoteName heq
  rw [parse_remoteName b1 s1 h1, parse_remoteName b2 s2 h2] at h
  exact h

/-- C5 witness: the convention separates stages `"dev"` and `"prod"` of base
name `"fn"`. -/
theorem c5_naming_injective_roundtrip_witness :
    parseRemoteName (remoteName "fn" (some "dev")) = ("fn", some "dev")
    ∧ ((("fn" : String), (some "dev" : Option String)) ≠ ("fn", some "prod") →
        remoteName "fn" (some "dev") ≠ remoteName "fn" (some "prod")) :=
  c5_naming_injective_roundtrip "fn" "fn" (some "dev") (some "prod")
    (by decide) (by decide)

/-- C6: `sync --dryrun` leaves the remote resource set untouched — the
command's dry-run pass reports the orphan set but performs no deletion, so
`listRemote` observes the same resources afterwards for every stage. -/
theorem c6_sync_dryrun_no_mutation (env : List (String × String)) (p : String)
    (defaultProject : Option String) (location : String)
    (stage : Option String) (R : List RemoteResource)
    (D : List DeclaredResource) :
    (syncCmd env (some p) defaultProject location stage true (.ok ()) R D).remote
        = R
    ∧ (syncCmd env (some p) defaultProject location stage true (.ok ()) R
        D).reported = some (orphanSet R D stage)
    ∧ ∀ st, listRemote st
          ((syncCmd env (some p) defaultProject location stage true (.ok ()) R
            D).remote)
        = listRemote st R :=
  ⟨rfl, rfl, fun _ => rfl⟩

/-- C7: when the declared base names are free of the stage separator, the
orphan set is exactly the convention-matching remote resources for the
active stage minus the image of the declared set under the naming
convention; a remote resource parsing to a different stage is never
included. -/
theorem c7_orphan_set_exact (R : List RemoteResource)
    (D : List DeclaredResource) (st : Option String)
    (hD : ∀ d ∈ D, ('-' : Char) ∉ d.baseName.data) :
    (∀ r, r ∈ orphanSet R D st ↔
        r ∈ R ∧ (parseRemoteName r.name).2 = st
          ∧ ¬ ∃ d ∈ D, d.kind = r.kind ∧ remoteName d.baseName st = r.name)
    ∧ ∀ r ∈ R, (parseRemoteName r.name).2 ≠ st → r ∉ orphanSet R D st := by
  have hmain : ∀ r, r ∈ orphanSet R D st ↔
      r ∈ R ∧ (parseRemoteName r.name).2 = st
        ∧ ¬ ∃ d ∈ D, d.kind = r.kind ∧ remoteName d.baseName st = r.name := by
    intro r
    simp only [orphanSet, listRemote, List.mem_filter, Bool.not_eq_true',
      beq_iff_eq]
    constructor
    · rintro ⟨⟨hR, hst⟩, hdc⟩
      refine ⟨hR, hst, ?_⟩
      rintro ⟨d, hd, hkind, hname⟩
      have hparse : parseRemoteName r.name = (d.baseName, st) := by
        rw [← hname]
        exact parse_remoteName d.baseName st (hD d hd)
      have htrue : declaredContains D r.kind (parseRemoteName r.name).1 = true := by
        rw [declaredContains_eq_true_iff]
        exact ⟨d, hd, hkind, by rw [hparse]⟩
      rw [htrue] at hdc
      exact absurd hdc (by simp)
    · rintro ⟨hR, hst, hnone⟩
      refine ⟨⟨hR, hst⟩, ?_⟩
      cases hdecl : declaredContains D r.kind (parseRemoteName r.name).1 with
      | false => rfl
      | true =>
        obtain ⟨d, hd, hkind, hbase⟩ := (declaredContains_eq_true_iff D r.kind
          (parseRemoteName r.name).1).mp hdecl
        exact absurd ⟨d, hd, hkind, by
          rw [hbase, ← hst]
          exact remoteName_parse r.name⟩ hnone
  exact ⟨hmain, fun r _ hne hmem => hne ((hmain r).mp hmem).2.1⟩

/-- C7 witness (stage isolation): a remote `fn-prod` is not in the orphan
set of a sync scoped to stage `dev`, even with `fn` declared. -/
theorem c7_orphan_set_exact_witness :
    RemoteResource.mk "cloudfunction" "fn-prod" ∉
      orphanSet
        [RemoteResource.mk "cloudfunction" "fn-dev",
          RemoteResource.mk "cloudfunction" "fn-prod"]
        [DeclaredResource.mk "cloudfunction" "fn"] (some "dev") :=
  (c7_orphan_set_exact
      [RemoteResource.mk "cloudfunction" "fn-dev",
        RemoteResource.mk "cloudfunction" "fn-prod"]
      [DeclaredResource.mk "cloudfunction" "fn"] (some "dev")
      (by decide)).2
    (RemoteResource.mk "cloudfunction" "fn-prod") (by decide) (by decide)

/-- C8: in every embedded command that loads the app (deploy, destroy, sync,
package, job run), a `FileNotFoundError` from the load is caught by the
`except` handler: the command echoes the message naming the missing file,
no exception escapes, and the operation itself is never invoked. -/
theorem c8_missing_entry_file_reported (env : List (String × String))
    (p location : String) (defaultProject : Option String)
    (stage : Option String)
    (skip_function only_function force all dryrun conflict : Bool)
    (config : Option String) (R : List RemoteResource)
    (D : List DeclaredResource) (name task_id fname : String) :
    (deployCmd env (some p) defaultProject location stage skip_function
        only_function config force (.error fname) conflict).echoes
        = [missingMsg fname]
    ∧ (deployCmd env (some p) defaultProject location stage skip_function
        only_function config force (.error fname) conflict).exc = none
    ∧ (deployCmd env (some p) defaultProject location stage skip_function
        only_function config force (.error fname) conflict).deployed = false
    ∧ (destroyCmd env (some p) defaultProject location stage all
        (.error fname)).echoes = [missingMsg fname]
    ∧ (destroyCmd env (some p) defaultProject location stage all
        (.error fname)).exc = none
    ∧ (destroyCmd env (some p) defaultProject location stage all
        (.error fname)).destroyCalled = none
    ∧ (syncCmd env (some p) defaultProject location stage dryrun (.error fname)
        R D).echoes = [missingMsg fname]
    ∧ (syncCmd env (some p) defaultProject location stage dryrun (.error fname)
        R D).exc = none
    ∧ (syncCmd env (some p) defaultProject location stage dryrun (.error fname)
        R D).remote = R
    ∧ (syncCmd env (some p) defaultProject location stage dryrun (.error fname)
        R D).reported = none
    ∧ (packageCmd env stage (.error fname)).echoes = [missingMsg fname]
    ∧ (packageCmd env stage (.error fname)).exc = none
    ∧ (packageCmd env stage (.error fname)).packaged = false
    ∧ (run_job env (fun _ => .error fname) name task_id).echoes
        = [missingMsg fname]
    ∧ (run_job env (fun _ => .error fname) name task_id).exc = none
    ∧ (run_job env (fun _ => .error fname) name task_id).call = none :=
  ⟨rfl, rfl, rfl, rfl, rfl, rfl, rfl, rfl, rfl, rfl, rfl, rfl, rfl, rfl, rfl,
    rfl⟩

/-- C10: `job run` writes the `task_id` argument into
`CLOUD_RUN_TASK_INDEX` before the app is loaded (the loader sees the updated
environment), invokes the app with the job name and the decimal integer
value of `task_id`, and with the argument omitted click's default `"1"`
makes the app receive task index 1. -/
theorem c10_run_job_task_index (env : List (String × String))
    (load : List (String × String) → Except String Unit)
    (name task_id : String) (k : Int)
    (hload : load (assocSet env "CLOUD_RUN_TASK_INDEX" task_id) = .ok ())
    (hk : pyInt? task_id = some k) :
    assocLookup (run_job env load name task_id).env "CLOUD_RUN_TASK_INDEX"
        = some task_id
    ∧ (run_job env load name task_id).call = some (name, k)
    ∧ (load (assocSet env "CLOUD_RUN_TASK_INDEX" "1") = .ok () →
        (run_jobDefault env load name).call = some (name, 1)) := by
  refine ⟨?_, ?_, fun h1 => ?_⟩
  · simp only [run_job, hload, hk]
    exact assocLookup_assocSet env "CLOUD_RUN_TASK_INDEX" task_id
  · simp only [run_job, hload, hk]
  · simp only [run_jobDefault, run_job, h1]
    rfl

/-- C10 witness: running job `"mapper"` with task id `"5"`, and the default
task id `"1"`. -/
theorem c10_run_job_task_index_witness :
    assocLookup (run_job [] (fun _ => Except.ok ()) "mapper" "5").env
        "CLOUD_RUN_TASK_INDEX" = some "5"
    ∧ (run_job [] (fun _ => Except.ok ()) "mapper" "5").call = some ("mapper", 5)
    ∧ ((fun _ : List (String × String) => (Except.ok () : Except String Unit))
          (assocSet [] "CLOUD_RUN_TASK_INDEX" "1") = Except.ok () →
        (run_jobDefault [] (fun _ => Except.ok ()) "mapper").call
          = some ("mapper", 1)) :=
  c10_run_job_task_index [] (fun _ => Except.ok ()) "mapper" "5" 5 rfl
    (by decide)

end Goblet
